import Mathlib

/-!
Shallow embedding of `backend/compliance_checker.py` (class `ComplianceChecker`)
from the contractiq repository, together with proofs of the spec claims.

Numeric conventions: Python float arithmetic is modelled exactly over `ℚ`;
Python's case-insensitive substring test `term.lower() in text.lower()` is
modelled by an executable search over the character lists (with `Char.toLower`
standing in for `str.lower`).  Calls into the external `re` library
(`re.finditer`, `re.search`) are modelled by abstract function parameters,
since the regex engine is not part of this repository.
-/

namespace ContractIQ

/-- Lowercase the characters of a string (models Python `str.lower`). -/
def lowerChars (s : String) : List Char := s.toList.map Char.toLower

/-- charsPre n h tests whether the list `n` occurs at the very start of `h`. -/
def charsPre : List Char → List Char → Bool
  | [], _ => true
  | _ :: _, [] => false
  | a :: as, b :: bs => a == b && charsPre as bs

/-- charsSub n h tests whether `n` occurs contiguously somewhere in `h`. -/
def charsSub (n : List Char) : List Char → Bool
  | [] => n.isEmpty
  | c :: cs => charsPre n (c :: cs) || charsSub n cs

/-- occursIn term text models Python `term.lower() in text.lower()`. -/
def occursIn (term text : String) : Bool :=
  charsSub (lowerChars term) (lowerChars text)

/-- Rule triple for one regulation, as in `_load_compliance_rules`. -/
structure RegulationRules where
  required_terms : List String
  prohibited_terms : List String
  risk_indicators : List String
deriving DecidableEq, Repr

/-- The static catalog returned by `_load_compliance_rules`. -/
def compliance_rules : List (String × RegulationRules) :=
  [ ("GDPR",
     { required_terms :=
         ["data protection", "personal data", "data subject rights",
          "consent", "data processor", "data controller"]
       prohibited_terms :=
         ["unlimited data retention", "no data subject rights"]
       risk_indicators :=
         ["automatic data processing", "profiling", "sensitive data"] }),
    ("CCPA",
     { required_terms :=
         ["california consumer privacy act", "personal information",
          "consumer rights", "opt-out", "data deletion"]
       prohibited_terms :=
         ["no consumer rights", "mandatory data sharing"]
       risk_indicators :=
         ["sale of personal information", "third-party sharing"] }),
    ("SOX",
     { required_terms :=
         ["financial disclosure", "internal controls", "audit",
          "financial reporting", "compliance certification"]
       prohibited_terms :=
         ["no financial oversight", "unrestricted access"]
       risk_indicators :=
         ["related party transactions", "off-balance sheet"] }),
    ("HIPAA",
     { required_terms :=
         ["protected health information", "phi", "business associate",
          "minimum necessary", "security safeguards"]
       prohibited_terms :=
         ["unrestricted phi access", "no security measures"]
       risk_indicators :=
         ["phi disclosure", "unsecured transmission"] }) ]

/-- Result record built by `_check_single_regulation`. -/
structure RegulationResult where
  regulation : String
  score : ℚ
  found_requirements : List String
  missing_requirements : List String
  risk_factors : List String
  prohibited_found : List String
deriving DecidableEq, Repr

/-- Embedding of `_check_single_regulation`: the three term scans followed by
the score computation. -/
def check_single_regulation (text : String) (regulation : String)
    (rules : RegulationRules) : RegulationResult :=
  let found_required := rules.required_terms.filter (fun t => occursIn t text)
  let missing_required := rules.required_terms.filter (fun t => !(occursIn t text))
  let prohibited_found := rules.prohibited_terms.filter (fun t => occursIn t text)
  let risk_factors := rules.risk_indicators.filter (fun t => occursIn t text)
  let score : ℚ :=
    if rules.required_terms.isEmpty then 100
    else
      max 0 (((found_required.length : ℚ) / (rules.required_terms.length : ℚ)
              - (prohibited_found.length : ℚ) * 0.2
              - (risk_factors.length : ℚ) * 0.1) * 100)
  { regulation := regulation
    score := score
    found_requirements := found_required
    missing_requirements := missing_required
    risk_factors := risk_factors
    prohibited_found := prohibited_found }

/-- Report record built by `check_compliance` / `check_specific_compliance`. -/
structure ComplianceReport where
  overall_score : ℚ
  regulations : List (String × RegulationResult)
  missing_requirements : List String
  risk_factors : List String
  recommendations : List String
deriving DecidableEq, Repr

/-- Embedding of `_generate_recommendations`, fed the fields of the report it
inspects. -/
def generate_recommendations (overall_score : ℚ)
    (missing_requirements risk_factors : List String) : List String :=
  let recommendations : List String :=
    (if overall_score < 70 then
       ["Document requires significant compliance improvements"] else [])
    ++ (if !missing_requirements.isEmpty then
         ["Add missing compliance requirements: "
            ++ String.intercalate ", " (missing_requirements.take 3)] else [])
    ++ (if !risk_factors.isEmpty then
         ["Review and address identified risk factors"] else [])
  if recommendations.isEmpty then
    ["Document shows good compliance. Consider periodic review."]
  else recommendations

/-- Embedding of `check_compliance`: evaluate every catalog regulation,
average the scores, and collect missing requirements and risk factors. -/
def check_compliance (text : String) : ComplianceReport :=
  let regs := compliance_rules.map
    (fun p => (p.1, check_single_regulation text p.1 p.2))
  let total_score : ℚ := (regs.map (fun p => p.2.score)).sum
  let regulation_count : ℕ := regs.length
  let missing := (regs.map (fun p => p.2.missing_requirements)).flatten
  let risks := (regs.map (fun p => p.2.risk_factors)).flatten
  let overall : ℚ :=
    if 0 < regulation_count then total_score / (regulation_count : ℚ) else 0
  { overall_score := overall
    regulations := regs
    missing_requirements := missing
    risk_factors := risks
    recommendations := generate_recommendations overall missing risks }

/-- Embedding of `check_specific_compliance`: evaluate only the requested
regulation names that appear in the catalog, skipping the rest. -/
def check_specific_compliance (text : String) (regulations : List String) :
    ComplianceReport :=
  let regs := regulations.filterMap
    (fun name => (compliance_rules.lookup name).map
      (fun rules => (name, check_single_regulation text name rules)))
  let total_score : ℚ := (regs.map (fun p => p.2.score)).sum
  let regulation_count : ℕ := regs.length
  let missing := (regs.map (fun p => p.2.missing_requirements)).flatten
  let risks := (regs.map (fun p => p.2.risk_factors)).flatten
  let overall : ℚ :=
    if 0 < regulation_count then total_score / (regulation_count : ℚ) else 0
  { overall_score := overall
    regulations := regs
    missing_requirements := missing
    risk_factors := risks
    recommendations := generate_recommendations overall missing risks }

/-! Risk scoring (`calculate_risk_score`). -/

/-- The static high-risk term bucket (weight 3). -/
def high_risk_terms : List String :=
  ["unlimited liability", "personal guarantee", "liquidated damages",
   "automatic renewal", "non-compete", "exclusive dealing",
   "penalty clause", "forfeiture"]

/-- The static medium-risk term bucket (weight 2). -/
def medium_risk_terms : List String :=
  ["indemnification", "force majeure", "intellectual property",
   "confidentiality breach", "termination for convenience",
   "governing law", "arbitration mandatory"]

/-- The static low-risk term bucket (weight 1). -/
def low_risk_terms : List String :=
  ["standard warranty", "mutual agreement", "reasonable notice",
   "good faith", "best efforts", "industry standard"]

/-- Result record built by `calculate_risk_score`. -/
structure RiskAssessment where
  overall_score : ℚ
  risk_level : String
  high_risk_found : List String
  medium_risk_found : List String
  low_risk_found : List String
  recommendations : List String
deriving DecidableEq, Repr

/-- Embedding of `_generate_risk_recommendations`. -/
def generate_risk_recommendations (risk_level : String)
    (high_risk_found : List String) : List String :=
  (if risk_level == "HIGH" then
     ["High-risk document requires legal review before execution",
      "Consider negotiating terms to reduce liability exposure"]
   else if risk_level == "MEDIUM" then
     ["Medium-risk document should be reviewed by legal counsel",
      "Ensure adequate insurance coverage for identified risks"]
   else
     ["Low-risk document with standard terms",
      "Periodic review recommended for ongoing compliance"])
  ++ (if !high_risk_found.isEmpty then
       ["Pay special attention to high-risk clauses identified"] else [])

/-- Embedding of `calculate_risk_score`: scan the three weighted buckets,
accumulate the weighted total, classify, and scale the score. -/
def calculate_risk_score (text : String) : RiskAssessment :=
  let hf := high_risk_terms.filter (fun t => occursIn t text)
  let mf := medium_risk_terms.filter (fun t => occursIn t text)
  let lf := low_risk_terms.filter (fun t => occursIn t text)
  let total_risk_score : ℕ := 3 * hf.length + 2 * mf.length + 1 * lf.length
  let risk_level : String :=
    if 15 ≤ total_risk_score then "HIGH"
    else if 8 ≤ total_risk_score then "MEDIUM"
    else "LOW"
  { overall_score := min 100 ((total_risk_score : ℚ) * 5)
    risk_level := risk_level
    high_risk_found := hf
    medium_risk_found := mf
    low_risk_found := lf
    recommendations := generate_risk_recommendations risk_level hf }

/-! Clause detection (`detect_clauses`, `extract_specific_clauses`).
The regex engine is external library code; `re.finditer` is modelled by an
abstract parameter producing the match records of one pattern over the text,
and `re.search` by an abstract Boolean test of one pattern against one
sentence. -/

/-- One match record as assembled in `detect_clauses` from a `re` match
object: matched text, surrounding context, and position. -/
structure ClauseMatch where
  matched : String
  context : String
  position : ℕ
deriving DecidableEq, Repr

/-- Patterns-and-keywords pair for one clause type, as in
`_load_clause_patterns`.  Patterns are carried as their regex source text. -/
structure ClausePatternsData where
  patterns : List String
  keywords : List String
deriving DecidableEq, Repr

/-- The static catalog returned by `_load_clause_patterns`. -/
def clause_patterns : List (String × ClausePatternsData) :=
  [ ("termination",
     { patterns :=
         ["terminat\\w+", "end\\s+(?:this\\s+)?agreement", "expir\\w+",
          "dissolv\\w+", "breach.*terminat\\w+"]
       keywords := ["terminate", "termination", "end", "expire", "dissolution"] }),
    ("liability",
     { patterns :=
         ["liabilit\\w+", "liable\\s+for", "damages", "indemnif\\w+",
          "limitation\\s+of\\s+liability"]
       keywords := ["liability", "liable", "damages", "indemnify", "limitation"] }),
    ("payment",
     { patterns :=
         ["payment\\s+terms", "invoice\\w*", "fee\\s+schedule", "compensation",
          "\\$[\\d,]+(?:\\.\\d\x7b2\x7d)?"]
       keywords := ["payment", "invoice", "fee", "compensation", "cost"] }),
    ("confidentiality",
     { patterns :=
         ["confidential\\w*", "non.?disclosure", "proprietary\\s+information",
          "trade\\s+secret\\w*", "confidentiality\\s+agreement"]
       keywords := ["confidential", "non-disclosure", "proprietary", "trade secret"] }),
    ("intellectual_property",
     { patterns :=
         ["intellectual\\s+property", "copyright\\w*", "trademark\\w*",
          "patent\\w*", "trade\\s+secret\\w*"]
       keywords := ["intellectual property", "copyright", "trademark", "patent"] }),
    ("dispute_resolution",
     { patterns :=
         ["dispute\\s+resolution", "arbitration", "mediation",
          "governing\\s+law", "jurisdiction"]
       keywords := ["dispute", "arbitration", "mediation", "governing law"] }),
    ("force_majeure",
     { patterns :=
         ["force\\s+majeure", "act\\s+of\\s+god", "unforeseeable\\s+circumstances",
          "beyond\\s+reasonable\\s+control"]
       keywords := ["force majeure", "act of god", "unforeseeable"] }) ]

/-- Per-clause-type record built by `detect_clauses`. -/
structure ClauseDetection where
  found : Bool
  match_list : List ClauseMatch
  keywords_found : List String
  confidence : ℚ
deriving DecidableEq, Repr

/-- Embedding of `_calculate_clause_confidence`. -/
def calculate_clause_confidence (clause_matches : List ClauseMatch)
    (keyword_matches : List String) : ℚ :=
  let pattern_score := min ((clause_matches.length : ℚ) * 0.4) 1
  let keyword_score := min ((keyword_matches.length : ℚ) * 0.2) 0.6
  min (pattern_score + keyword_score) 1

/-- Body of the `detect_clauses` loop for one clause type.  `finditer p text`
stands for the list of match records `re.finditer(p, text, re.IGNORECASE)`
yields (with context and position already extracted as in the source). -/
def detect_one_clause (finditer : String → String → List ClauseMatch)
    (text : String) (pd : ClausePatternsData) : ClauseDetection :=
  let clause_matches := (pd.patterns.map (fun p => finditer p text)).flatten
  let keyword_matches := pd.keywords.filter (fun k => occursIn k text)
  if !clause_matches.isEmpty || !keyword_matches.isEmpty then
    { found := true
      match_list := clause_matches.take 3
      keywords_found := keyword_matches
      confidence := calculate_clause_confidence clause_matches keyword_matches }
  else
    { found := false, match_list := [], keywords_found := [], confidence := 0 }

/-- Embedding of `detect_clauses`: run the per-type detection over the whole
catalog. -/
def detect_clauses (finditer : String → String → List ClauseMatch)
    (text : String) : List (String × ClauseDetection) :=
  clause_patterns.map (fun p => (p.1, detect_one_clause finditer text p.2))

/-- Per-clause-type record built by `extract_specific_clauses`. -/
structure ClauseExtraction where
  found : Bool
  text_segments : List String
  count : ℕ
deriving DecidableEq, Repr

/-- splitOnDot models Python `text.split(".")` on the character list. -/
def splitOnDot : List Char → List (List Char)
  | [] => [[]]
  | c :: cs =>
    if c = '.' then [] :: splitOnDot cs
    else
      match splitOnDot cs with
      | [] => [[c]]
      | s :: ss => (c :: s) :: ss

/-- pyStrip models Python `str.strip()` (drop whitespace at both ends). -/
def pyStrip (s : String) : String :=
  String.mk (((s.toList.dropWhile Char.isWhitespace).reverse.dropWhile
    Char.isWhitespace).reverse)

/-- Body of the `extract_specific_clauses` loop for a known clause type.
`research p s` stands for the Boolean outcome of
`re.search(p, s, re.IGNORECASE)`. -/
def extract_one_clause (research : String → String → Bool) (text : String)
    (pd : ClausePatternsData) : ClauseExtraction :=
  let sentences := (splitOnDot text.toList).map String.mk
  let clause_text :=
    (sentences.filter (fun s => pd.patterns.any (fun p => research p s))).map
      pyStrip
  { found := decide (0 < clause_text.length)
    text_segments := clause_text.take 3
    count := clause_text.length }

/-- Embedding of `extract_specific_clauses`: known clause types are
extracted, unknown ones yield the empty record. -/
def extract_specific_clauses (research : String → String → Bool)
    (text : String) (clause_types : List String) :
    List (String × ClauseExtraction) :=
  clause_types.map (fun ct =>
    match clause_patterns.lookup ct with
    | some pd => (ct, extract_one_clause research text pd)
    | none => (ct, { found := false, text_segments := [], count := 0 }))

/-! Supporting lemmas. -/

/-- charsPre holds exactly when the needle starts the haystack. -/
lemma charsPre_iff (n : List Char) : ∀ h : List Char,
    charsPre n h = true ↔ ∃ r, h = n ++ r := by
  induction n with
  | nil => intro h; simp [charsPre]
  | cons a as ih =>
    intro h
    cases h with
    | nil => simp [charsPre]
    | cons b bs =>
      simp only [charsPre, Bool.and_eq_true, beq_iff_eq, ih bs]
      constructor
      · rintro ⟨rfl, r, rfl⟩; exact ⟨r, rfl⟩
      · rintro ⟨r, hr⟩
        cases hr
        exact ⟨rfl, r, rfl⟩

/-- charsSub holds exactly when the needle occurs contiguously in the
haystack. -/
lemma charsSub_iff (n : List Char) : ∀ h : List Char,
    charsSub n h = true ↔ ∃ l r, h = l ++ n ++ r := by
  intro h
  induction h with
  | nil =>
    simp only [charsSub, List.isEmpty_iff]
    constructor
    · rintro rfl; exact ⟨[], [], rfl⟩
    · rintro ⟨l, r, hr⟩
      rcases List.append_eq_nil.mp hr.symm with ⟨h1, h2⟩
      exact (List.append_eq_nil.mp h1).2
  | cons c cs ih =>
    simp only [charsSub, Bool.or_eq_true, charsPre_iff, ih]
    constructor
    · rintro (⟨r, hr⟩ | ⟨l, r, hr⟩)
      · exact ⟨[], r, by simpa using hr⟩
      · exact ⟨c :: l, r, by simp [hr]⟩
    · rintro ⟨l, r, hr⟩
      cases l with
      | nil => exact Or.inl ⟨r, by simpa using hr⟩
      | cons x xs =>
        rcases List.cons_eq_cons.mp (by simpa using hr) with ⟨rfl, h2⟩
        exact Or.inr ⟨xs, r, by simpa [List.append_assoc] using h2⟩

/-- Filtering with a pointwise weaker predicate keeps at most as many
elements. -/
lemma length_filter_le_of_imp {α : Type} (l : List α) (p q : α → Bool)
    (h : ∀ a ∈ l, p a = true → q a = true) :
    (l.filter p).length ≤ (l.filter q).length := by
  induction l with
  | nil => simp
  | cons a t ih =>
    have ht : ∀ b ∈ t, p b = true → q b = true :=
      fun b hb => h b (List.mem_cons_of_mem a hb)
    by_cases hp : p a = true
    · have hq := h a (List.mem_cons_self a t) hp
      simp only [List.filter_cons, hp, hq, if_true, List.length_cons]
      exact Nat.succ_le_succ (ih ht)
    · have hp' : p a = false := by simpa using hp
      cases hq : q a
      · simp only [List.filter_cons, hp', hq, if_false]
        exact ih ht
      · simp only [List.filter_cons, hp', hq, if_false, if_true,
          List.length_cons]
        exact Nat.le_succ_of_le (ih ht)

/-- The two complementary filters of a list have lengths summing to the
length of the list. -/
lemma length_filter_add_length_filter_not {α : Type} (l : List α)
    (p : α → Bool) :
    (l.filter p).length + (l.filter (fun a => !(p a))).length = l.length := by
  induction l with
  | nil => simp
  | cons a t ih =>
    cases hp : p a
    · simp [List.filter_cons, hp]
      omega
    · simp [List.filter_cons, hp]
      omega

/-! Claim theorems. -/

/-- C1: for every text and rule set with a non-empty required-term list the
per-regulation score is `max 0 ((found/total − 0.2·prohibited − 0.1·risk)·100)`,
where a term is found exactly when its lowercasing occurs contiguously in the
lowercased text; with zero required terms the score is 100. -/
theorem c1_regulation_score_formula (text regulation : String)
    (rules : RegulationRules) :
    (∀ term : String,
        occursIn term text = true ↔
          ∃ l r, lowerChars text = l ++ lowerChars term ++ r) ∧
    (check_single_regulation text regulation rules).score =
      (if rules.required_terms = [] then (100 : ℚ)
       else
        max 0
          ((((rules.required_terms.filter (fun t => occursIn t text)).length : ℚ)
              / (rules.required_terms.length : ℚ)
            - 0.2 * ((rules.prohibited_terms.filter
                (fun t => occursIn t text)).length : ℚ)
            - 0.1 * ((rules.risk_indicators.filter
                (fun t => occursIn t text)).length : ℚ)) * 100)) := by
  constructor
  · intro term
    exact charsSub_iff (lowerChars term) (lowerChars text)
  · by_cases h : rules.required_terms = []
    · simp [check_single_regulation, h]
    · have h' : rules.required_terms.isEmpty = false := by
        simpa [List.isEmpty_iff] using h
      simp only [check_single_regulation, h', h, if_false, Bool.false_eq_true]
      congr 1
      ring

/-- C10: the found and missing requirement lists of a per-regulation result
partition the catalog's required-term list: both are sublists of it (so the
catalog order is preserved and no foreign term appears), membership in each is
characterized by the case-insensitive substring test, and their lengths sum to
the number of required terms. -/
theorem c10_found_missing_partition (text regulation : String)
    (rules : RegulationRules) :
    List.Sublist
      (check_single_regulation text regulation rules).found_requirements
      rules.required_terms ∧
    List.Sublist
      (check_single_regulation text regulation rules).missing_requirements
      rules.required_terms ∧
    (∀ t : String,
      t ∈ (check_single_regulation text regulation rules).found_requirements ↔
        t ∈ rules.required_terms ∧ occursIn t text = true) ∧
    (∀ t : String,
      t ∈ (check_single_regulation text regulation rules).missing_requirements ↔
        t ∈ rules.required_terms ∧ occursIn t text = false) ∧
    (check_single_regulation text regulation rules).found_requirements.length +
      (check_single_regulation text regulation rules).missing_requirements.length
      = rules.required_terms.length := by
  refine ⟨?_, ?_, ?_, ?_, ?_⟩
  · exact List.filter_sublist _
  · exact List.filter_sublist _
  · intro t
    simp [check_single_regulation, List.mem_filter]
  · intro t
    simp [check_single_regulation, List.mem_filter]
  · exact length_filter_add_length_filter_not rules.required_terms
      (fun t => occursIn t text)

/-- Clause-detection confidence is never negative. -/
lemma clause_confidence_nonneg (cm : List ClauseMatch) (km : List String) :
    0 ≤ calculate_clause_confidence cm km := by
  simp only [calculate_clause_confidence]
  have h1 : (0 : ℚ) ≤ min ((cm.length : ℚ) * 0.4) 1 :=
    le_min (by positivity) (by norm_num)
  have h2 : (0 : ℚ) ≤ min ((km.length : ℚ) * 0.2) 0.6 :=
    le_min (by positivity) (by norm_num)
  exact le_min (by linarith) (by norm_num)

/-- Clause-detection confidence never exceeds one. -/
lemma clause_confidence_le_one (cm : List ClauseMatch) (km : List String) :
    calculate_clause_confidence cm km ≤ 1 := by
  simp only [calculate_clause_confidence]
  exact min_le_right _ _

/-- C4: detection confidence equals
`min(1, min(matchCount·0.4, 1) + min(keywordCount·0.2, 0.6))`, and for every
text and clause type the confidence of the detection result lies in [0, 1]. -/
theorem c4_confidence_formula_and_bounds (cm : List ClauseMatch)
    (km : List String) :
    calculate_clause_confidence cm km =
      min 1 (min ((cm.length : ℚ) * 0.4) 1 + min ((km.length : ℚ) * 0.2) 0.6) ∧
    (0 ≤ calculate_clause_confidence cm km ∧
      calculate_clause_confidence cm km ≤ 1) ∧
    ∀ (finditer : String → String → List ClauseMatch) (text : String)
      (pd : ClausePatternsData),
      0 ≤ (detect_one_clause finditer text pd).confidence ∧
      (detect_one_clause finditer text pd).confidence ≤ 1 := by
  refine ⟨?_, ⟨clause_confidence_nonneg cm km, clause_confidence_le_one cm km⟩,
    ?_⟩
  · simp only [calculate_clause_confidence]
    exact min_comm _ _
  · intro finditer text pd
    simp only [detect_one_clause]
    split
    · exact ⟨clause_confidence_nonneg _ _, clause_confidence_le_one _ _⟩
    · norm_num

/-- The weighted risk total accumulated by `calculate_risk_score`: weight 3
per high-risk term found, 2 per medium-risk term, 1 per low-risk term. -/
def weightedRiskTotal (text : String) : ℕ :=
  3 * (high_risk_terms.filter (fun t => occursIn t text)).length
  + 2 * (medium_risk_terms.filter (fun t => occursIn t text)).length
  + 1 * (low_risk_terms.filter (fun t => occursIn t text)).length

/-- C3: the risk score is `min(100, 5·W)` for the weighted total `W`, and the
risk level is HIGH exactly when `W ≥ 15`, MEDIUM exactly when `8 ≤ W < 15`,
and LOW exactly when `W < 8`. -/
theorem c3_risk_score_formula (text : String) :
    (calculate_risk_score text).overall_score =
      min 100 (5 * (weightedRiskTotal text : ℚ)) ∧
    ((calculate_risk_score text).risk_level = "HIGH" ↔
      15 ≤ weightedRiskTotal text) ∧
    ((calculate_risk_score text).risk_level = "MEDIUM" ↔
      8 ≤ weightedRiskTotal text ∧ weightedRiskTotal text < 15) ∧
    ((calculate_risk_score text).risk_level = "LOW" ↔
      weightedRiskTotal text < 8) := by
  have hsc : (calculate_risk_score text).overall_score =
      min 100 ((weightedRiskTotal text : ℚ) * 5) := rfl
  have hlvl : (calculate_risk_score text).risk_level =
      (if 15 ≤ weightedRiskTotal text then "HIGH"
       else if 8 ≤ weightedRiskTotal text then "MEDIUM" else "LOW") := rfl
  have hHM : ("HIGH" : String) ≠ "MEDIUM" := by decide
  have hHL : ("HIGH" : String) ≠ "LOW" := by decide
  have hMH : ("MEDIUM" : String) ≠ "HIGH" := by decide
  have hMLw : ("MEDIUM" : String) ≠ "LOW" := by decide
  have hLH : ("LOW" : String) ≠ "HIGH" := by decide
  have hLM : ("LOW" : String) ≠ "MEDIUM" := by decide
  refine ⟨?_, ?_, ?_, ?_⟩
  · rw [hsc]; congr 1; ring
  all_goals rw [hlvl]
  all_goals by_cases h15 : 15 ≤ weightedRiskTotal text
  all_goals by_cases h8 : 8 ≤ weightedRiskTotal text
  all_goals simp only [h15, h8, if_true, if_false]
  all_goals simp_all
  all_goals omega

/-- C2: the overall score of `check_compliance` is the arithmetic mean of the
four catalog regulation scores, and the overall score of
`check_specific_compliance` is the mean of the scores of the regulations
actually evaluated, or 0 when none were. -/
theorem c2_overall_score_is_mean (text : String) (names : List String) :
    (check_compliance text).overall_score =
      ((check_compliance text).regulations.map (fun p => p.2.score)).sum
        / ((check_compliance text).regulations.length : ℚ) ∧
    (check_specific_compliance text names).overall_score =
      (if (check_specific_compliance text names).regulations.length = 0 then 0
       else
        ((check_specific_compliance text names).regulations.map
            (fun p => p.2.score)).sum
          / ((check_specific_compliance text names).regulations.length : ℚ)) := by
  constructor
  · have h4 : (check_compliance text).regulations.length = 4 := rfl
    have he : (check_compliance text).overall_score =
        (if 0 < (check_compliance text).regulations.length then
          ((check_compliance text).regulations.map (fun p => p.2.score)).sum
            / ((check_compliance text).regulations.length : ℚ)
         else 0) := rfl
    rw [he, h4]
    norm_num
  · have he : (check_specific_compliance text names).overall_score =
        (if 0 < (check_specific_compliance text names).regulations.length then
          ((check_specific_compliance text names).regulations.map
              (fun p => p.2.score)).sum
            / ((check_specific_compliance text names).regulations.length : ℚ)
         else 0) := rfl
    rw [he]
    rcases Nat.eq_zero_or_pos
        (check_specific_compliance text names).regulations.length with h | h
    · simp [h]
    · simp [h, Nat.pos_iff_ne_zero.mp h]

/-- Dropping the elements on which an Option-valued map returns `none` does
not change its filterMap. -/
lemma filterMap_eq_filterMap_filter {α β : Type} (l : List α)
    (f : α → Option β) :
    l.filterMap f = (l.filter (fun a => (f a).isSome)).filterMap f := by
  induction l with
  | nil => rfl
  | cons a t ih =>
    cases hf : f a
    · simp [List.filterMap_cons, List.filter_cons, hf, ih]
    · simp [List.filterMap_cons, List.filter_cons, hf, ih]

/-- C7: requested regulation names missing from the catalog are silently
skipped: the whole report equals the report for the request list with the
unknown names removed (so they contribute nothing to any field), and a name
appears among the result's regulation keys exactly when it was requested and
is in the catalog. -/
theorem c7_unknown_regulation_names_skipped (text : String)
    (names : List String) :
    check_specific_compliance text names =
      check_specific_compliance text
        (names.filter (fun n => (compliance_rules.lookup n).isSome)) ∧
    ∀ name : String,
      name ∈ (check_specific_compliance text names).regulations.map Prod.fst ↔
        name ∈ names ∧ (compliance_rules.lookup name).isSome = true := by
  have key : names.filterMap
        (fun name => (compliance_rules.lookup name).map
          (fun rules => (name, check_single_regulation text name rules))) =
      (names.filter (fun n => (compliance_rules.lookup n).isSome)).filterMap
        (fun name => (compliance_rules.lookup name).map
          (fun rules => (name, check_single_regulation text name rules))) := by
    have := filterMap_eq_filterMap_filter names
      (fun name => (compliance_rules.lookup name).map
        (fun rules => (name, check_single_regulation text name rules)))
    simpa [Option.isSome_map] using this
  constructor
  · simp only [check_specific_compliance]
    rw [key]
  · intro name
    simp only [check_specific_compliance, List.mem_map, List.mem_filterMap,
      Option.map_eq_some']
    constructor
    · rintro ⟨b, ⟨a, ha, rules, hl, rfl⟩, hfst⟩
      rcases hfst with rfl
      exact ⟨ha, by simp [hl]⟩
    · rintro ⟨hn, hs⟩
      rcases Option.isSome_iff_exists.mp hs with ⟨rules, hl⟩
      exact ⟨(name, check_single_regulation text name rules),
        ⟨name, hn, rules, hl, rfl⟩, rfl⟩

/-- A single regulation score is never negative. -/
lemma single_score_nonneg (text regulation : String)
    (rules : RegulationRules) :
    0 ≤ (check_single_regulation text regulation rules).score := by
  have he : (check_single_regulation text regulation rules).score =
      (if rules.required_terms.isEmpty then (100 : ℚ)
       else
        max 0 ((((rules.required_terms.filter
              (fun t => occursIn t text)).length : ℚ)
            / (rules.required_terms.length : ℚ)
          - ((rules.prohibited_terms.filter
              (fun t => occursIn t text)).length : ℚ) * 0.2
          - ((rules.risk_indicators.filter
              (fun t => occursIn t text)).length : ℚ) * 0.1) * 100)) := rfl
  rw [he]
  split
  · norm_num
  · exact le_max_left 0 _

/-- A single regulation score never exceeds 100. -/
lemma single_score_le_100 (text regulation : String)
    (rules : RegulationRules) :
    (check_single_regulation text regulation rules).score ≤ 100 := by
  have he : (check_single_regulation text regulation rules).score =
      (if rules.required_terms.isEmpty then (100 : ℚ)
       else
        max 0 ((((rules.required_terms.filter
              (fun t => occursIn t text)).length : ℚ)
            / (rules.required_terms.length : ℚ)
          - ((rules.prohibited_terms.filter
              (fun t => occursIn t text)).length : ℚ) * 0.2
          - ((rules.risk_indicators.filter
              (fun t => occursIn t text)).length : ℚ) * 0.1) * 100)) := rfl
  rw [he]
  split
  · norm_num
  · rename_i h
    apply max_le (by norm_num)
    have hn : 0 < rules.required_terms.length :=
      List.length_pos.mpr (by simpa [List.isEmpty_iff] using h)
    have hnq : (0 : ℚ) < (rules.required_terms.length : ℚ) := by
      exact_mod_cast hn
    have hf : ((rules.required_terms.filter
          (fun t => occursIn t text)).length : ℚ)
        ≤ (rules.required_terms.length : ℚ) := by
      exact_mod_cast List.length_filter_le _ _
    have hratio : ((rules.required_terms.filter
          (fun t => occursIn t text)).length : ℚ)
        / (rules.required_terms.length : ℚ) ≤ 1 :=
      (div_le_one hnq).mpr hf
    have hp : (0 : ℚ) ≤ ((rules.prohibited_terms.filter
        (fun t => occursIn t text)).length : ℚ) * 0.2 := by positivity
    have hr : (0 : ℚ) ≤ ((rules.risk_indicators.filter
        (fun t => occursIn t text)).length : ℚ) * 0.1 := by positivity
    nlinarith

/-- The conditional mean of a list of rationals each lying in [0, 100] also
lies in [0, 100]. -/
lemma mean_bounds (l : List ℚ) (h0 : ∀ x ∈ l, 0 ≤ x)
    (h1 : ∀ x ∈ l, x ≤ 100) :
    0 ≤ (if 0 < l.length then l.sum / (l.length : ℚ) else 0) ∧
    (if 0 < l.length then l.sum / (l.length : ℚ) else 0) ≤ 100 := by
  split
  · rename_i h
    have hlq : (0 : ℚ) < (l.length : ℚ) := by exact_mod_cast h
    constructor
    · exact div_nonneg (List.sum_nonneg h0) (le_of_lt hlq)
    · rw [div_le_iff₀ hlq]
      have hs := List.sum_le_card_nsmul l 100 h1
      simpa [nsmul_eq_mul, mul_comm] using hs
  · norm_num

/-- C8: the overall score reported by `check_compliance`, and by
`check_specific_compliance` for any requested name list, lies in [0, 100]. -/
theorem c8_overall_score_in_range (text : String) (names : List String) :
    (0 ≤ (check_compliance text).overall_score ∧
      (check_compliance text).overall_score ≤ 100) ∧
    (0 ≤ (check_specific_compliance text names).overall_score ∧
      (check_specific_compliance text names).overall_score ≤ 100) := by
  constructor
  · have he : (check_compliance text).overall_score =
        (if 0 < ((check_compliance text).regulations.map
              (fun p => p.2.score)).length then
          ((check_compliance text).regulations.map (fun p => p.2.score)).sum
            / (((check_compliance text).regulations.map
                (fun p => p.2.score)).length : ℚ)
         else 0) := by
      simp only [check_compliance, List.length_map]
    rw [he]
    apply mean_bounds
    · intro x hx
      rcases List.mem_map.mp hx with ⟨p, hp, rfl⟩
      have hp' : ∃ a b, (a, b) ∈ compliance_rules ∧
          (a, check_single_regulation text a b) = p := by
        simpa [check_compliance] using hp
      rcases hp' with ⟨a, b, hab, hpe⟩
      cases hpe
      exact single_score_nonneg text a b
    · intro x hx
      rcases List.mem_map.mp hx with ⟨p, hp, rfl⟩
      have hp' : ∃ a b, (a, b) ∈ compliance_rules ∧
          (a, check_single_regulation text a b) = p := by
        simpa [check_compliance] using hp
      rcases hp' with ⟨a, b, hab, hpe⟩
      cases hpe
      exact single_score_le_100 text a b
  · have he : (check_specific_compliance text names).overall_score =
        (if 0 < ((check_specific_compliance text names).regulations.map
              (fun p => p.2.score)).length then
          ((check_specific_compliance text names).regulations.map
              (fun p => p.2.score)).sum
            / (((check_specific_compliance text names).regulations.map
                (fun p => p.2.score)).length : ℚ)
         else 0) := by
      simp only [check_specific_compliance, List.length_map]
    rw [he]
    apply mean_bounds
    · intro x hx
      rcases List.mem_map.mp hx with ⟨p, hp, rfl⟩
      have hp' : ∃ a ∈ names, ∃ b, List.lookup a compliance_rules = some b ∧
          (a, check_single_regulation text a b) = p := by
        simpa [check_specific_compliance] using hp
      rcases hp' with ⟨a, ha, b, hl, hpe⟩
      cases hpe
      exact single_score_nonneg text a b
    · intro x hx
      rcases List.mem_map.mp hx with ⟨p, hp, rfl⟩
      have hp' : ∃ a ∈ names, ∃ b, List.lookup a compliance_rules = some b ∧
          (a, check_single_regulation text a b) = p := by
        simpa [check_specific_compliance] using hp
      rcases hp' with ⟨a, ha, b, hl, hpe⟩
      cases hpe
      exact single_score_le_100 text a b

/-- C5: for every clause type, detection reports `found = true` exactly when
some pattern yields a match or some keyword occurs case-insensitively in the
text; the stored match list is the first 3 of the uncapped match list, while
the confidence is computed from the uncapped match count and the keyword
count; and `detect_clauses` applies this to every catalog clause type. -/
theorem c5_detect_clauses_spec (finditer : String → String → List ClauseMatch)
    (text : String) (pd : ClausePatternsData) :
    ((detect_one_clause finditer text pd).found = true ↔
      ((pd.patterns.map (fun p => finditer p text)).flatten ≠ [] ∨
        ∃ k ∈ pd.keywords, occursIn k text = true)) ∧
    (detect_one_clause finditer text pd).match_list =
      ((pd.patterns.map (fun p => finditer p text)).flatten).take 3 ∧
    (detect_one_clause finditer text pd).confidence =
      calculate_clause_confidence
        ((pd.patterns.map (fun p => finditer p text)).flatten)
        (pd.keywords.filter (fun k => occursIn k text)) ∧
    detect_clauses finditer text =
      clause_patterns.map (fun p => (p.1, detect_one_clause finditer text p.2)) := by
  have hkw : pd.keywords.filter (fun k => occursIn k text) ≠ [] ↔
      ∃ k ∈ pd.keywords, occursIn k text = true := by
    rw [Ne, List.filter_eq_nil_iff]
    push_neg
    simp
  by_cases hm : (pd.patterns.map (fun p => finditer p text)).flatten = []
  · by_cases hk : pd.keywords.filter (fun k => occursIn k text) = []
    · have hcond : (detect_one_clause finditer text pd) =
          { found := false, match_list := [], keywords_found := [],
            confidence := 0 } := by
        simp [detect_one_clause, hm, hk]
      refine ⟨?_, ?_, ?_, rfl⟩
      · rw [hcond]
        simp only [hm, hkw.symm, hk]
        simp
      · rw [hcond, hm]
        simp
      · rw [hcond, hm, hk]
        simp [calculate_clause_confidence]
        norm_num
    · have hcond : (detect_one_clause finditer text pd) =
          { found := true,
            match_list :=
              ((pd.patterns.map (fun p => finditer p text)).flatten).take 3,
            keywords_found := pd.keywords.filter (fun k => occursIn k text),
            confidence := calculate_clause_confidence
              ((pd.patterns.map (fun p => finditer p text)).flatten)
              (pd.keywords.filter (fun k => occursIn k text)) } := by
        simp only [detect_one_clause]
        have hkf : (pd.keywords.filter (fun k => occursIn k text)).isEmpty
            = false := by simpa [List.isEmpty_iff] using hk
        rw [if_pos (by simp [hkf])]
      refine ⟨?_, by rw [hcond], by rw [hcond], rfl⟩
      rw [hcond]
      simpa using Or.inr (hkw.mp hk)
  · have hcond : (detect_one_clause finditer text pd) =
        { found := true,
          match_list :=
            ((pd.patterns.map (fun p => finditer p text)).flatten).take 3,
          keywords_found := pd.keywords.filter (fun k => occursIn k text),
          confidence := calculate_clause_confidence
            ((pd.patterns.map (fun p => finditer p text)).flatten)
            (pd.keywords.filter (fun k => occursIn k text)) } := by
      simp only [detect_one_clause]
      have hmf : ((pd.patterns.map (fun p => finditer p text)).flatten).isEmpty
          = false := by simpa [List.isEmpty_iff] using hm
      rw [if_pos (by simp [hmf])]
    refine ⟨?_, by rw [hcond], by rw [hcond], rfl⟩
    rw [hcond]
    simpa using Or.inl hm

/-- C6: clause extraction splits the text on ".", keeps each segment at most
once when some pattern of the requested type matches it, returns the first 3
qualifying segments trimmed together with the total qualifying count and
`found = (count > 0)`; requested clause types missing from the catalog yield
`found = false`, no segments, and count 0. -/
theorem c6_extract_specific_clauses_spec
    (research : String → String → Bool) (text : String)
    (clause_types : List String) :
    extract_specific_clauses research text clause_types =
      clause_types.map (fun ct =>
        match clause_patterns.lookup ct with
        | some pd =>
          (ct,
           { found := decide (0 <
               (((splitOnDot text.toList).map String.mk).filter
                 (fun s => pd.patterns.any (fun p => research p s))).length)
             text_segments :=
               ((((splitOnDot text.toList).map String.mk).filter
                   (fun s => pd.patterns.any (fun p => research p s))).map
                 pyStrip).take 3
             count := (((splitOnDot text.toList).map String.mk).filter
                 (fun s => pd.patterns.any (fun p => research p s))).length })
        | none => (ct, { found := false, text_segments := [], count := 0 })) := by
  simp only [extract_specific_clauses]
  apply List.map_congr_left
  intro ct _
  cases h : clause_patterns.lookup ct
  · simp
  · simp [extract_one_clause, List.length_map]

/-- C9: if a previously absent required term becomes present while every
other term's found status and the prohibited and risk scans are unchanged,
the per-regulation score does not decrease. -/
theorem c9_score_monotone_in_new_required_term (t t2 regulation : String)
    (rules : RegulationRules) (term : String)
    (hmem : term ∈ rules.required_terms)
    (hold : occursIn term t = false) (hnew : occursIn term t2 = true)
    (hothers : ∀ u ∈ rules.required_terms, u ≠ term →
      occursIn u t2 = occursIn u t)
    (hpro : ∀ u ∈ rules.prohibited_terms, occursIn u t2 = occursIn u t)
    (hrisk : ∀ u ∈ rules.risk_indicators, occursIn u t2 = occursIn u t) :
    (check_single_regulation t regulation rules).score ≤
      (check_single_regulation t2 regulation rules).score := by
  have hnil : rules.required_terms ≠ [] := List.ne_nil_of_mem hmem
  have hne : rules.required_terms.isEmpty = false := by
    simpa [List.isEmpty_iff] using hnil
  have he : ∀ s : String, (check_single_regulation s regulation rules).score =
      (if rules.required_terms.isEmpty then (100 : ℚ)
       else
        max 0 ((((rules.required_terms.filter
              (fun u => occursIn u s)).length : ℚ)
            / (rules.required_terms.length : ℚ)
          - ((rules.prohibited_terms.filter
              (fun u => occursIn u s)).length : ℚ) * 0.2
          - ((rules.risk_indicators.filter
              (fun u => occursIn u s)).length : ℚ) * 0.1) * 100)) :=
    fun s => rfl
  rw [he t, he t2]
  simp only [hne, Bool.false_eq_true, if_false]
  have hP : rules.prohibited_terms.filter (fun u => occursIn u t2) =
      rules.prohibited_terms.filter (fun u => occursIn u t) :=
    List.filter_congr hpro
  have hR : rules.risk_indicators.filter (fun u => occursIn u t2) =
      rules.risk_indicators.filter (fun u => occursIn u t) :=
    List.filter_congr hrisk
  have hF : (rules.required_terms.filter (fun u => occursIn u t)).length ≤
      (rules.required_terms.filter (fun u => occursIn u t2)).length := by
    apply length_filter_le_of_imp
    intro u hu hut
    by_cases hcase : u = term
    · subst hcase
      exact hnew
    · rw [hothers u hu hcase]
      exact hut
  rw [hP, hR]
  apply max_le_max le_rfl
  apply mul_le_mul_of_nonneg_right _ (by norm_num)
  have hn : (0 : ℚ) < (rules.required_terms.length : ℚ) := by
    exact_mod_cast List.length_pos.mpr hnil
  have hFq : ((rules.required_terms.filter
        (fun u => occursIn u t)).length : ℚ) ≤
      ((rules.required_terms.filter (fun u => occursIn u t2)).length : ℚ) := by
    exact_mod_cast hF
  have hdiv : ((rules.required_terms.filter
        (fun u => occursIn u t)).length : ℚ)
        / (rules.required_terms.length : ℚ) ≤
      ((rules.required_terms.filter (fun u => occursIn u t2)).length : ℚ)
        / (rules.required_terms.length : ℚ) := by
    gcongr
  linarith

/-- Witness for C9: with the single required term "consent", absent from "x"
and present in "consent", the score does not decrease. -/
theorem c9_witness :
    (check_single_regulation "x" "GDPR"
        { required_terms := ["consent"], prohibited_terms := [],
          risk_indicators := [] }).score ≤
      (check_single_regulation "consent" "GDPR"
        { required_terms := ["consent"], prohibited_terms := [],
          risk_indicators := [] }).score :=
  c9_score_monotone_in_new_required_term "x" "consent" "GDPR"
    { required_terms := ["consent"], prohibited_terms := [],
      risk_indicators := [] }
    "consent" (by decide) (by decide) (by decide)
    (by decide) (by decide) (by decide)

end ContractIQ
